import Mathlib

/-
  Shallow embedding of the 2025-edd-gcloud-backend-resource service layer:
  `app/services/gemini_service.py` (client adapter, retrying analysis invoker,
  health check) and the routers `app/api/routers/gemini.py` and
  `app/api/routers/health.py`.  Effects are made explicit: environment reads,
  the lru_cache cell, the per-attempt upstream outcomes, sleeps and file reads
  are all threaded as data, and each embedded function returns an instrumented
  trace of what the Python code would have done.
-/

deriving instance DecidableEq for Except

namespace GcloudBackend

/-- Python truthiness of an optional string: `None` and `""` are falsy. -/
def truthyStr : Option String → Bool
  | none => false
  | some s => s != ""

/-- Python truthiness of an optional integer: `None` and `0` are falsy. -/
def truthyNat : Option Nat → Bool
  | none => false
  | some n => n != 0

/-- Python `pat in s` on character lists: `pat` occurs as a contiguous run. -/
def hasSubstring (pat : List Char) : List Char → Bool
  | [] => pat.isEmpty
  | c :: rest => pat.isPrefixOf (c :: rest) || hasSubstring pat rest

/-- Python `pat in s` for strings. -/
def strContains (s pat : String) : Bool :=
  hasSubstring pat.data s.data

/-- Python `s.startswith(pat)`. -/
def strStartsWith (s pat : String) : Bool :=
  pat.data.isPrefixOf s.data

/-- The characters Python's `str.strip()` removes: space, tab, newline,
carriage return, vertical tab and form feed. -/
def pyIsSpace (c : Char) : Bool :=
  c == ' ' || c == '\t' || c == '\n' || c == '\r' || c == '\x0b' || c == '\x0c'

/-- Python `s.strip()`: drop leading and trailing whitespace. -/
def pyStrip (s : String) : String :=
  ⟨((s.data.dropWhile pyIsSpace).reverse.dropWhile pyIsSpace).reverse⟩

/-- Embedding of `fastapi.HTTPException`: a status code plus a detail string. -/
structure HTTPException where
  statusCode : Nat
  detail : String
  deriving DecidableEq, Repr

/-- Embedding of the `GeminiAnalyzeResponse` model: `result` and `status`. -/
structure GeminiAnalyzeResponse where
  result : String
  status : String
  deriving DecidableEq, Repr

/-- Embedding of the `GeminiHealthResponse` model: `status` and `service`. -/
structure GeminiHealthResponse where
  status : String
  service : String
  deriving DecidableEq, Repr

/-- Embedding of `fastapi.UploadFile` as the code uses it: a declared
content type (`None` possible), a declared size (`None` possible) and the
byte content returned by `file.read()`. -/
structure UploadFileM where
  contentType : Option String
  size : Option Nat
  content : List Nat
  deriving DecidableEq, Repr

/-- `MAX_RETRIES = 3` from `gemini_service.py`. -/
def MAX_RETRIES : Nat := 3

/-- `INITIAL_RETRY_DELAY = 2` (seconds) from `gemini_service.py`. -/
def INITIAL_RETRY_DELAY : Nat := 2

/-- `MAX_FILE_SIZE = 20 * 1024 * 1024` from `routers/gemini.py`. -/
def MAX_FILE_SIZE : Nat := 20 * 1024 * 1024

/-- The retry classification at `gemini_service.py:123`:
`"429" in error_str or "RESOURCE_EXHAUSTED" in error_str`. -/
def isRateLimitError (errorStr : String) : Bool :=
  strContains errorStr "429" || strContains errorStr "RESOURCE_EXHAUSTED"

/- ------------------------------------------------------------------ -/
/- Upstream client adapter: `get_gemini_client` under `lru_cache`.     -/
/- ------------------------------------------------------------------ -/

/-- The environment variables read by `get_gemini_client`, as
`os.getenv` delivers them (`None` when unset, possibly empty). -/
structure Env where
  googleCloudProject : Option String
  vertexAiLocation : Option String
  deriving DecidableEq, Repr

/-- The body of `get_gemini_client` (lines 30-50): read the two environment
variables, raise `ValueError` if either is falsy, then attempt the
`genai.Client` construction (modelled as `construct`, which either yields an
opaque handle or fails with a message).  The `except` block wraps any raised
error into an `HTTPException 500` whose detail embeds the error text. -/
def getGeminiClientBody (env : Env) (construct : Except String Nat) :
    Except HTTPException Nat :=
  if !truthyStr env.googleCloudProject then
    .error ⟨500, "Gemini API初期化エラー: GOOGLE_CLOUD_PROJECT環境変数が設定されていません"⟩
  else if !truthyStr env.vertexAiLocation then
    .error ⟨500, "Gemini API初期化エラー: VERTEX_AI_LOCATION環境変数が設定されていません"⟩
  else
    match construct with
    | .ok c => .ok c
    | .error m => .error ⟨500, "Gemini API初期化エラー: " ++ m⟩

/-- Result of one call to the `lru_cache`-wrapped `get_gemini_client`:
the returned value or raised exception, the cache cell afterwards, and
whether the wrapped body ran at all (a cache hit skips it). -/
structure ClientCallResult where
  result : Except HTTPException Nat
  newCache : Option Nat
  bodyRan : Bool
  deriving DecidableEq, Repr

/-- `get_gemini_client` with its `@lru_cache(maxsize=1)` semantics: a cached
handle is returned without running the body; otherwise the body runs, a
successful handle is stored in the cache, and a raised exception leaves the
cache empty (functools.lru_cache never caches exceptions). -/
def get_gemini_client (env : Env) (construct : Except String Nat)
    (cache : Option Nat) : ClientCallResult :=
  match cache with
  | some c => ⟨.ok c, some c, false⟩
  | none =>
    match getGeminiClientBody env construct with
    | .ok c => ⟨.ok c, some c, true⟩
    | .error e => ⟨.error e, none, true⟩

/-- `health_check` (lines 150-162): call `get_gemini_client`, return `true`
on success and `false` on any exception; the cache cell is threaded. -/
def health_check (env : Env) (construct : Except String Nat)
    (cache : Option Nat) : Bool × Option Nat :=
  let r := get_gemini_client env construct cache
  match r.result with
  | .ok _ => (true, r.newCache)
  | .error _ => (false, r.newCache)

/- ------------------------------------------------------------------ -/
/- Retrying analysis invoker: `analyze_image` in `gemini_service.py`.  -/
/- ------------------------------------------------------------------ -/

/-- Outcome of one `client.models.generate_content` attempt: success with
`response.text` (`None` possible) or a raised exception rendered by `str`. -/
inductive GenOutcome where
  | ok (text : Option String)
  | err (msg : String)
  deriving DecidableEq, Repr

/-- Arguments of one `generate_content` call: the prompt text part, the
image bytes and the MIME type of the image part. -/
structure CallRec where
  prompt : String
  data : List Nat
  mimeType : String
  deriving DecidableEq, Repr

/-- How the retry loop of `analyze_image` ended: a successful response text,
or fall-through to the terminal `raise` with the last stored exception. -/
inductive RetryResult where
  | success (text : Option String)
  | exhausted (lastExc : Option String)
  deriving DecidableEq, Repr

/-- The `for attempt in range(MAX_RETRIES)` loop of `analyze_image`
(lines 84-142), instrumented.  `fuel` is the number of remaining loop
iterations (`MAX_RETRIES - attempt`), `lastExc` is `last_exception`, and the
lists accumulate the `generate_content` calls made and the `time.sleep`
durations in order.  A rate-limit-classified failure with
`attempt < MAX_RETRIES - 1` sleeps `INITIAL_RETRY_DELAY * 2 ^ attempt` and
continues; on the last attempt it merely falls through; any other failure
breaks out of the loop at once. -/
def retryLoop (call : CallRec) (outcomes : Nat → GenOutcome) :
    Nat → Nat → Option String → List CallRec → List Nat →
    List CallRec × List Nat × RetryResult
  | 0, _, lastExc, calls, sleeps => (calls, sleeps, .exhausted lastExc)
  | fuel + 1, attempt, lastExc, calls, sleeps =>
    match outcomes attempt with
    | .ok text => (calls ++ [call], sleeps, .success text)
    | .err msg =>
      if isRateLimitError msg then
        if attempt < MAX_RETRIES - 1 then
          retryLoop call outcomes fuel (attempt + 1) (some msg) (calls ++ [call])
            (sleeps ++ [INITIAL_RETRY_DELAY * 2 ^ attempt])
        else
          retryLoop call outcomes fuel (attempt + 1) (some msg) (calls ++ [call]) sleeps
      else
        (calls ++ [call], sleeps, .exhausted (some msg))

/-- `result_text` extraction (lines 106-108): `response.text` when truthy,
otherwise the fixed placeholder `"分析結果を取得できませんでした"`. -/
def resultTextOf : Option String → String
  | none => "分析結果を取得できませんでした"
  | some t => if t == "" then "分析結果を取得できませんでした" else t

/-- Turn the loop result into the function result: a success returns
`GeminiAnalyzeResponse(result=..., status="success")`; fall-through raises
`HTTPException(500, "Gemini API分析エラー: " + str(last_exception))`
(Python renders a `None` last exception as `"None"`). -/
def assembleOutcome : RetryResult → Except HTTPException GeminiAnalyzeResponse
  | .success t => .ok ⟨resultTextOf t, "success"⟩
  | .exhausted lastExc =>
    .error ⟨500, "Gemini API分析エラー: " ++ lastExc.getD "None"⟩

/-- Instrumented result of one `analyze_image` service invocation: how many
times `file.read()` ran, the `generate_content` calls made in order, the
backoff sleeps in order, and the returned response or raised exception. -/
structure ServiceTrace where
  reads : Nat
  calls : List CallRec
  sleeps : List Nat
  outcome : Except HTTPException GeminiAnalyzeResponse
  deriving DecidableEq, Repr

/-- The MIME type given to `types.Part.from_bytes` on line 79:
`file.content_type or "image/jpeg"` (Python `or` falls back on a falsy
value, so both a missing and an empty content type yield `"image/jpeg"`). -/
def mimeTypeOf (file : UploadFileM) : String :=
  if truthyStr file.contentType then file.contentType.getD ""
  else "image/jpeg"

/-- The argument record of every `generate_content` call in one invocation:
the original prompt as a text part plus the image part built once before the
loop from the bytes of the single `file.read()` and `mimeTypeOf`. -/
def sentCall (file : UploadFileM) (prompt : String) : CallRec :=
  ⟨prompt, file.content, mimeTypeOf file⟩

/-- `analyze_image` in `gemini_service.py` (lines 53-147).  `clientInit` is
the result of the `get_gemini_client()` call on line 68 (an `HTTPException`
there propagates before any read or attempt).  The image bytes are read once,
the image part is built with MIME type `file.content_type or "image/jpeg"`,
and the retry loop runs with the per-attempt upstream `outcomes`. -/
def analyze_image (clientInit : Except HTTPException Nat) (file : UploadFileM)
    (prompt : String) (outcomes : Nat → GenOutcome) : ServiceTrace :=
  match clientInit with
  | .error e => ⟨0, [], [], .error e⟩
  | .ok _ =>
    let r := retryLoop (sentCall file prompt) outcomes MAX_RETRIES 0 none [] []
    ⟨1, r.1, r.2.1, assembleOutcome r.2.2⟩

/- ------------------------------------------------------------------ -/
/- Routers: `routers/gemini.py` and `routers/health.py`.               -/
/- ------------------------------------------------------------------ -/

/-- Result of the `/api/v1/gemini/analyze` endpoint: the instrumented trace
of the `gemini_service.analyze_image` call when it ran (`none` means a
validation failure stopped the request before the invoker was called) and
the response returned or exception raised by the handler. -/
structure EndpointTrace where
  serviceTrace : Option ServiceTrace
  response : Except HTTPException GeminiAnalyzeResponse
  deriving DecidableEq, Repr

/-- The `analyze_image` route handler in `routers/gemini.py` (lines 12-44):
reject a falsy or non-`image/` content type with 400, then a declared size
above `MAX_FILE_SIZE` with 400 (a falsy size is skipped), then a prompt that
is empty after `strip()` with 400; otherwise delegate to the service. -/
def analyze_image_endpoint (clientInit : Except HTTPException Nat)
    (file : UploadFileM) (prompt : String) (outcomes : Nat → GenOutcome) :
    EndpointTrace :=
  if !truthyStr file.contentType
      || !strStartsWith (file.contentType.getD "") "image/" then
    ⟨none, .error ⟨400, "画像ファイルのみサポートしています"⟩⟩
  else if truthyNat file.size && decide (file.size.getD 0 > MAX_FILE_SIZE) then
    ⟨none, .error ⟨400, "ファイルサイズは20MB以下にしてください"⟩⟩
  else if (pyStrip prompt).length == 0 then
    ⟨none, .error ⟨400, "プロンプトが空です"⟩⟩
  else
    let t := analyze_image clientInit file prompt outcomes
    ⟨some t, t.outcome⟩

/-- The `gemini_health` route handler (`routers/gemini.py` lines 47-57):
run `gemini_service.health_check()`; a `false` result raises
`HTTPException(503)`, a `true` result returns the healthy payload. -/
def gemini_health (env : Env) (construct : Except String Nat)
    (cache : Option Nat) :
    Except HTTPException GeminiHealthResponse × Option Nat :=
  let r := health_check env construct cache
  if r.1 then
    (.ok ⟨"healthy", "Google Gemini 2.5 Pro via Vertex AI"⟩, r.2)
  else
    (.error ⟨503, "Gemini API接続エラー"⟩, r.2)

/-- The `readiness_probe` handler (`routers/health.py` lines 33-44).  Its
`try` body only samples the clock and formats a timestamp, modelled as the
total inputs `currentTime` and `timestamp`; the body therefore always
returns the ready payload and the `except` branch raising 503 is dead. -/
def readiness_probe (currentTime : Nat) (timestamp : String) :
    Except HTTPException (String × String × Nat) :=
  .ok ("ready", timestamp, currentTime)

/- ------------------------------------------------------------------ -/
/- Step lemmas for the retry loop.                                     -/
/- ------------------------------------------------------------------ -/

/-- Exhausted fuel: the loop body no longer runs and the accumulated state is
returned, feeding the terminal `raise`. -/
lemma retryLoop_fuel_zero (call : CallRec) (outcomes : Nat → GenOutcome)
    (attempt : Nat) (lastExc : Option String) (calls : List CallRec)
    (sleeps : List Nat) :
    retryLoop call outcomes 0 attempt lastExc calls sleeps =
      (calls, sleeps, .exhausted lastExc) := rfl

/-- A successful attempt returns at once with the response text. -/
lemma retryLoop_success (call : CallRec) (outcomes : Nat → GenOutcome)
    (fuel attempt : Nat) (lastExc : Option String) (calls : List CallRec)
    (sleeps : List Nat) (text : Option String)
    (h : outcomes attempt = .ok text) :
    retryLoop call outcomes (fuel + 1) attempt lastExc calls sleeps =
      (calls ++ [call], sleeps, .success text) := by
  simp [retryLoop, h]

/-- A rate-limit-classified failure before the last attempt sleeps
`INITIAL_RETRY_DELAY * 2 ^ attempt` and retries. -/
lemma retryLoop_rate_limited_retry (call : CallRec)
    (outcomes : Nat → GenOutcome) (fuel attempt : Nat)
    (lastExc : Option String) (calls : List CallRec) (sleeps : List Nat)
    (msg : String) (h : outcomes attempt = .err msg)
    (hr : isRateLimitError msg = true) (hl : attempt < MAX_RETRIES - 1) :
    retryLoop call outcomes (fuel + 1) attempt lastExc calls sleeps =
      retryLoop call outcomes fuel (attempt + 1) (some msg) (calls ++ [call])
        (sleeps ++ [INITIAL_RETRY_DELAY * 2 ^ attempt]) := by
  simp [retryLoop, h, hr, hl]

/-- A rate-limit-classified failure on the last attempt does not sleep: the
`for` loop just runs out. -/
lemma retryLoop_rate_limited_last (call : CallRec)
    (outcomes : Nat → GenOutcome) (fuel attempt : Nat)
    (lastExc : Option String) (calls : List CallRec) (sleeps : List Nat)
    (msg : String) (h : outcomes attempt = .err msg)
    (hr : isRateLimitError msg = true) (hl : ¬ attempt < MAX_RETRIES - 1) :
    retryLoop call outcomes (fuel + 1) attempt lastExc calls sleeps =
      retryLoop call outcomes fuel (attempt + 1) (some msg) (calls ++ [call])
        sleeps := by
  simp [retryLoop, h, hr, hl]

/-- Any failure not classified as a rate limit breaks out of the loop at
once, with no sleep and no further attempt. -/
lemma retryLoop_fatal (call : CallRec) (outcomes : Nat → GenOutcome)
    (fuel attempt : Nat) (lastExc : Option String) (calls : List CallRec)
    (sleeps : List Nat) (msg : String) (h : outcomes attempt = .err msg)
    (hr : isRateLimitError msg = false) :
    retryLoop call outcomes (fuel + 1) attempt lastExc calls sleeps =
      (calls ++ [call], sleeps, .exhausted (some msg)) := by
  simp [retryLoop, h, hr]

/-- Unfolding `analyze_image` when the client was obtained. -/
lemma analyze_image_ok (client : Nat) (file : UploadFileM) (prompt : String)
    (outcomes : Nat → GenOutcome) :
    analyze_image (.ok client) file prompt outcomes =
      ⟨1, (retryLoop (sentCall file prompt) outcomes MAX_RETRIES 0 none [] []).1,
        (retryLoop (sentCall file prompt) outcomes MAX_RETRIES 0 none [] []).2.1,
        assembleOutcome
          (retryLoop (sentCall file prompt) outcomes MAX_RETRIES 0 none [] []).2.2⟩ :=
  rfl

/-- The retry loop never drops accumulated calls: the final call list is at
least as long as the accumulator it starts from. -/
lemma retryLoop_calls_le (call : CallRec) (outcomes : Nat → GenOutcome) :
    ∀ (fuel attempt : Nat) (lastExc : Option String) (calls : List CallRec)
      (sleeps : List Nat),
      calls.length ≤
        (retryLoop call outcomes fuel attempt lastExc calls sleeps).1.length
  | 0, _, _, _, _ => Nat.le_refl _
  | fuel + 1, attempt, lastExc, calls, sleeps => by
    cases h : outcomes attempt with
    | ok t =>
      rw [retryLoop_success call outcomes fuel attempt lastExc calls sleeps t h]
      simp
    | err m =>
      cases hr : isRateLimitError m with
      | false =>
        rw [retryLoop_fatal call outcomes fuel attempt lastExc calls sleeps m h hr]
        simp
      | true =>
        by_cases hl : attempt < MAX_RETRIES - 1
        · rw [retryLoop_rate_limited_retry call outcomes fuel attempt lastExc
            calls sleeps m h hr hl]
          exact le_trans (by simp)
            (retryLoop_calls_le call outcomes fuel (attempt + 1) (some m)
              (calls ++ [call]) (sleeps ++ [INITIAL_RETRY_DELAY * 2 ^ attempt]))
        · rw [retryLoop_rate_limited_last call outcomes fuel attempt lastExc
            calls sleeps m h hr hl]
          exact le_trans (by simp)
            (retryLoop_calls_le call outcomes fuel (attempt + 1) (some m)
              (calls ++ [call]) sleeps)

/-- With fuel remaining, the loop always performs at least one further
upstream call before finishing. -/
lemma retryLoop_calls_lt (call : CallRec) (outcomes : Nat → GenOutcome)
    (fuel attempt : Nat) (lastExc : Option String) (calls : List CallRec)
    (sleeps : List Nat) :
    calls.length + 1 ≤
      (retryLoop call outcomes (fuel + 1) attempt lastExc calls sleeps).1.length := by
  cases h : outcomes attempt with
  | ok t =>
    rw [retryLoop_success call outcomes fuel attempt lastExc calls sleeps t h]
    simp
  | err m =>
    cases hr : isRateLimitError m with
    | false =>
      rw [retryLoop_fatal call outcomes fuel attempt lastExc calls sleeps m h hr]
      simp
    | true =>
      by_cases hl : attempt < MAX_RETRIES - 1
      · rw [retryLoop_rate_limited_retry call outcomes fuel attempt lastExc
          calls sleeps m h hr hl]
        have hle := retryLoop_calls_le call outcomes fuel (attempt + 1) (some m)
          (calls ++ [call]) (sleeps ++ [INITIAL_RETRY_DELAY * 2 ^ attempt])
        simpa using hle
      · rw [retryLoop_rate_limited_last call outcomes fuel attempt lastExc
          calls sleeps m h hr hl]
        have hle := retryLoop_calls_le call outcomes fuel (attempt + 1) (some m)
          (calls ++ [call]) sleeps
        simpa using hle

/-- Exhaustive case analysis of the backoff sleeps of a full run: the loop
starting at attempt 0 with `MAX_RETRIES` fuel only ever sleeps `[]`, `[2]`
or `[2, 4]` (the last attempt never sleeps, so no 8-second wait exists). -/
lemma retryLoop_sleeps_cases (call : CallRec) (outcomes : Nat → GenOutcome) :
    (retryLoop call outcomes MAX_RETRIES 0 none [] []).2.1 = [] ∨
    (retryLoop call outcomes MAX_RETRIES 0 none [] []).2.1 = [2] ∨
    (retryLoop call outcomes MAX_RETRIES 0 none [] []).2.1 = [2, 4] := by
  cases h0 : outcomes 0 with
  | ok t =>
    have e : retryLoop call outcomes MAX_RETRIES 0 none [] [] =
        ([call], [], .success t) :=
      retryLoop_success call outcomes 2 0 none [] [] t h0
    rw [e]
    simp
  | err m0 =>
    cases hr0 : isRateLimitError m0 with
    | false =>
      have e : retryLoop call outcomes MAX_RETRIES 0 none [] [] =
          ([call], [], .exhausted (some m0)) :=
        retryLoop_fatal call outcomes 2 0 none [] [] m0 h0 hr0
      rw [e]
      simp
    | true =>
      have s1 : retryLoop call outcomes MAX_RETRIES 0 none [] [] =
          retryLoop call outcomes 2 1 (some m0) [call] [2] :=
        retryLoop_rate_limited_retry call outcomes 2 0 none [] [] m0 h0 hr0
          (by decide)
      rw [s1]
      cases h1 : outcomes 1 with
      | ok t =>
        have e : retryLoop call outcomes 2 1 (some m0) [call] [2] =
            ([call, call], [2], .success t) :=
          retryLoop_success call outcomes 1 1 (some m0) [call] [2] t h1
        rw [e]
        simp
      | err m1 =>
        cases hr1 : isRateLimitError m1 with
        | false =>
          have e : retryLoop call outcomes 2 1 (some m0) [call] [2] =
              ([call, call], [2], .exhausted (some m1)) :=
            retryLoop_fatal call outcomes 1 1 (some m0) [call] [2] m1 h1 hr1
          rw [e]
          simp
        | true =>
          have s2 : retryLoop call outcomes 2 1 (some m0) [call] [2] =
              retryLoop call outcomes 1 2 (some m1) [call, call] [2, 4] :=
            retryLoop_rate_limited_retry call outcomes 1 1 (some m0) [call] [2]
              m1 h1 hr1 (by decide)
          rw [s2]
          cases h2 : outcomes 2 with
          | ok t =>
            have e : retryLoop call outcomes 1 2 (some m1) [call, call] [2, 4] =
                ([call, call, call], [2, 4], .success t) :=
              retryLoop_success call outcomes 0 2 (some m1) [call, call] [2, 4]
                t h2
            rw [e]
            simp
          | err m2 =>
            cases hr2 : isRateLimitError m2 with
            | false =>
              have e : retryLoop call outcomes 1 2 (some m1) [call, call] [2, 4] =
                  ([call, call, call], [2, 4], .exhausted (some m2)) :=
                retryLoop_fatal call outcomes 0 2 (some m1) [call, call] [2, 4]
                  m2 h2 hr2
              rw [e]
              simp
            | true =>
              have s3 : retryLoop call outcomes 1 2 (some m1) [call, call] [2, 4] =
                  retryLoop call outcomes 0 3 (some m2) [call, call, call]
                    [2, 4] :=
                retryLoop_rate_limited_last call outcomes 0 2 (some m1)
                  [call, call] [2, 4] m2 h2 hr2 (by decide)
              rw [s3, retryLoop_fuel_zero]
              simp

/- ------------------------------------------------------------------ -/
/- Claims.                                                             -/
/- ------------------------------------------------------------------ -/

/-- C1: when every one of the three upstream attempts fails with a
rate-limit-classified error, `analyze_image` raises `HTTPException 500`
whose detail embeds the last observed error's description, after exactly 3
attempts and exactly the 2 backoff sleeps `[2, 4]`, never a 4th attempt. -/
theorem analyze_image_rate_limit_exhaustion (client : Nat)
    (file : UploadFileM) (prompt : String) (outcomes : Nat → GenOutcome)
    (e0 e1 e2 : String) (h0 : outcomes 0 = .err e0)
    (h1 : outcomes 1 = .err e1) (h2 : outcomes 2 = .err e2)
    (r0 : isRateLimitError e0 = true) (r1 : isRateLimitError e1 = true)
    (r2 : isRateLimitError e2 = true) :
    (analyze_image (.ok client) file prompt outcomes).outcome =
      .error ⟨500, "Gemini API分析エラー: " ++ e2⟩ ∧
    (analyze_image (.ok client) file prompt outcomes).calls.length = 3 ∧
    (analyze_image (.ok client) file prompt outcomes).sleeps = [2, 4] := by
  have hloop : retryLoop (sentCall file prompt) outcomes MAX_RETRIES 0 none [] [] =
      ([sentCall file prompt, sentCall file prompt, sentCall file prompt],
        [2, 4], .exhausted (some e2)) :=
    (retryLoop_rate_limited_retry (sentCall file prompt) outcomes 2 0 none [] []
        e0 h0 r0 (by decide)).trans
      ((retryLoop_rate_limited_retry (sentCall file prompt) outcomes 1 1
          (some e0) [sentCall file prompt] [2] e1 h1 r1 (by decide)).trans
        ((retryLoop_rate_limited_last (sentCall file prompt) outcomes 0 2
            (some e1) [sentCall file prompt, sentCall file prompt] [2, 4]
            e2 h2 r2 (by decide)).trans
          (retryLoop_fuel_zero (sentCall file prompt) outcomes 3 (some e2)
            [sentCall file prompt, sentCall file prompt, sentCall file prompt]
            [2, 4])))
  rw [analyze_image_ok, hloop]
  exact ⟨rfl, rfl, rfl⟩

/-- C1 witness: concrete run where all three attempts fail with a
429-classified error. -/
theorem analyze_image_rate_limit_exhaustion_witness :
    (analyze_image (.ok 7) ⟨some "image/png", some 5, [1, 2, 3]⟩ "describe"
        (fun _ => .err "429 RESOURCE_EXHAUSTED")).outcome =
      .error ⟨500, "Gemini API分析エラー: 429 RESOURCE_EXHAUSTED"⟩ ∧
    (analyze_image (.ok 7) ⟨some "image/png", some 5, [1, 2, 3]⟩ "describe"
        (fun _ => .err "429 RESOURCE_EXHAUSTED")).calls.length = 3 ∧
    (analyze_image (.ok 7) ⟨some "image/png", some 5, [1, 2, 3]⟩ "describe"
        (fun _ => .err "429 RESOURCE_EXHAUSTED")).sleeps = [2, 4] :=
  analyze_image_rate_limit_exhaustion 7 ⟨some "image/png", some 5, [1, 2, 3]⟩
    "describe" (fun _ => .err "429 RESOURCE_EXHAUSTED")
    "429 RESOURCE_EXHAUSTED" "429 RESOURCE_EXHAUSTED" "429 RESOURCE_EXHAUSTED"
    rfl rfl rfl (by decide) (by decide) (by decide)

/-- C2: when the first two attempts fail with rate-limit-classified errors
and the third succeeds, `analyze_image` returns the successful result, the
accumulated backoff before the third attempt is `2 + 4 = 6` seconds (hence
at least 6), and no attempt is made after the success (exactly 3 calls). -/
theorem analyze_image_retry_then_success (client : Nat) (file : UploadFileM)
    (prompt : String) (outcomes : Nat → GenOutcome) (e0 e1 : String)
    (t : Option String) (h0 : outcomes 0 = .err e0)
    (h1 : outcomes 1 = .err e1) (h2 : outcomes 2 = .ok t)
    (r0 : isRateLimitError e0 = true) (r1 : isRateLimitError e1 = true) :
    (analyze_image (.ok client) file prompt outcomes).outcome =
      .ok ⟨resultTextOf t, "success"⟩ ∧
    (analyze_image (.ok client) file prompt outcomes).calls.length = 3 ∧
    (analyze_image (.ok client) file prompt outcomes).sleeps = [2, 4] ∧
    6 ≤ (analyze_image (.ok client) file prompt outcomes).sleeps.sum := by
  have hloop : retryLoop (sentCall file prompt) outcomes MAX_RETRIES 0 none [] [] =
      ([sentCall file prompt, sentCall file prompt, sentCall file prompt],
        [2, 4], .success t) :=
    (retryLoop_rate_limited_retry (sentCall file prompt) outcomes 2 0 none [] []
        e0 h0 r0 (by decide)).trans
      ((retryLoop_rate_limited_retry (sentCall file prompt) outcomes 1 1
          (some e0) [sentCall file prompt] [2] e1 h1 r1 (by decide)).trans
        (retryLoop_success (sentCall file prompt) outcomes 0 2 (some e1)
          [sentCall file prompt, sentCall file prompt] [2, 4] t h2))
  rw [analyze_image_ok, hloop]
  refine ⟨rfl, rfl, rfl, ?_⟩
  simp

/-- C2 witness: concrete run failing twice with 429 and succeeding on the
third attempt. -/
theorem analyze_image_retry_then_success_witness :
    (analyze_image (.ok 7) ⟨some "image/png", some 5, [1, 2, 3]⟩ "describe"
        (fun n => if n < 2 then .err "429" else .ok (some "answer"))).outcome =
      .ok ⟨resultTextOf (some "answer"), "success"⟩ ∧
    (analyze_image (.ok 7) ⟨some "image/png", some 5, [1, 2, 3]⟩ "describe"
        (fun n => if n < 2 then .err "429" else .ok (some "answer"))).calls.length = 3 ∧
    (analyze_image (.ok 7) ⟨some "image/png", some 5, [1, 2, 3]⟩ "describe"
        (fun n => if n < 2 then .err "429" else .ok (some "answer"))).sleeps = [2, 4] ∧
    6 ≤ (analyze_image (.ok 7) ⟨some "image/png", some 5, [1, 2, 3]⟩ "describe"
        (fun n => if n < 2 then .err "429" else .ok (some "answer"))).sleeps.sum :=
  analyze_image_retry_then_success 7 ⟨some "image/png", some 5, [1, 2, 3]⟩
    "describe" (fun n => if n < 2 then .err "429" else .ok (some "answer"))
    "429" "429" (some "answer") rfl rfl rfl (by decide) (by decide)

/-- C3: an upstream failure is retried exactly when its string form contains
a rate-limit marker (`isRateLimitError` is by definition the presence of
`"429"` or `"RESOURCE_EXHAUSTED"` in `str(e)`).  A non-classified failure at
any attempt ends the invocation at once — no backoff sleep is added, no
further attempt is made, and `HTTPException 500` embedding that error is
raised — while a classified failure at the first attempt always leads to a
second attempt. -/
theorem analyze_image_fatal_vs_retryable (client : Nat) (file : UploadFileM)
    (prompt : String) (outcomes : Nat → GenOutcome) :
    (∀ e0, outcomes 0 = .err e0 → isRateLimitError e0 = false →
      (analyze_image (.ok client) file prompt outcomes).outcome =
        .error ⟨500, "Gemini API分析エラー: " ++ e0⟩ ∧
      (analyze_image (.ok client) file prompt outcomes).calls.length = 1 ∧
      (analyze_image (.ok client) file prompt outcomes).sleeps = []) ∧
    (∀ e0 e1, outcomes 0 = .err e0 → isRateLimitError e0 = true →
      outcomes 1 = .err e1 → isRateLimitError e1 = false →
      (analyze_image (.ok client) file prompt outcomes).outcome =
        .error ⟨500, "Gemini API分析エラー: " ++ e1⟩ ∧
      (analyze_image (.ok client) file prompt outcomes).calls.length = 2 ∧
      (analyze_image (.ok client) file prompt outcomes).sleeps = [2]) ∧
    (∀ e0 e1 e2, outcomes 0 = .err e0 → isRateLimitError e0 = true →
      outcomes 1 = .err e1 → isRateLimitError e1 = true →
      outcomes 2 = .err e2 → isRateLimitError e2 = false →
      (analyze_image (.ok client) file prompt outcomes).outcome =
        .error ⟨500, "Gemini API分析エラー: " ++ e2⟩ ∧
      (analyze_image (.ok client) file prompt outcomes).calls.length = 3 ∧
      (analyze_image (.ok client) file prompt outcomes).sleeps = [2, 4]) ∧
    (∀ e0, outcomes 0 = .err e0 → isRateLimitError e0 = true →
      2 ≤ (analyze_image (.ok client) file prompt outcomes).calls.length) := by
  refine ⟨?_, ?_, ?_, ?_⟩
  · intro e0 h0 r0
    have hloop : retryLoop (sentCall file prompt) outcomes MAX_RETRIES 0 none [] [] =
        ([sentCall file prompt], [], .exhausted (some e0)) :=
      retryLoop_fatal (sentCall file prompt) outcomes 2 0 none [] [] e0 h0 r0
    rw [analyze_image_ok, hloop]
    exact ⟨rfl, rfl, rfl⟩
  · intro e0 e1 h0 r0 h1 r1
    have hloop : retryLoop (sentCall file prompt) outcomes MAX_RETRIES 0 none [] [] =
        ([sentCall file prompt, sentCall file prompt], [2],
          .exhausted (some e1)) :=
      (retryLoop_rate_limited_retry (sentCall file prompt) outcomes 2 0 none
          [] [] e0 h0 r0 (by decide)).trans
        (retryLoop_fatal (sentCall file prompt) outcomes 1 1 (some e0)
          [sentCall file prompt] [2] e1 h1 r1)
    rw [analyze_image_ok, hloop]
    exact ⟨rfl, rfl, rfl⟩
  · intro e0 e1 e2 h0 r0 h1 r1 h2 r2
    have hloop : retryLoop (sentCall file prompt) outcomes MAX_RETRIES 0 none [] [] =
        ([sentCall file prompt, sentCall file prompt, sentCall file prompt],
          [2, 4], .exhausted (some e2)) :=
      (retryLoop_rate_limited_retry (sentCall file prompt) outcomes 2 0 none
          [] [] e0 h0 r0 (by decide)).trans
        ((retryLoop_rate_limited_retry (sentCall file prompt) outcomes 1 1
            (some e0) [sentCall file prompt] [2] e1 h1 r1 (by decide)).trans
          (retryLoop_fatal (sentCall file prompt) outcomes 0 2 (some e1)
            [sentCall file prompt, sentCall file prompt] [2, 4] e2 h2 r2))
    rw [analyze_image_ok, hloop]
    exact ⟨rfl, rfl, rfl⟩
  · intro e0 h0 r0
    have s1 : retryLoop (sentCall file prompt) outcomes MAX_RETRIES 0 none [] [] =
        retryLoop (sentCall file prompt) outcomes 2 1 (some e0)
          [sentCall file prompt] [2] :=
      retryLoop_rate_limited_retry (sentCall file prompt) outcomes 2 0 none
        [] [] e0 h0 r0 (by decide)
    have hlt : 2 ≤ (retryLoop (sentCall file prompt) outcomes 2 1 (some e0)
        [sentCall file prompt] [2]).1.length :=
      retryLoop_calls_lt (sentCall file prompt) outcomes 1 1 (some e0)
        [sentCall file prompt] [2]
    rw [analyze_image_ok]
    simpa [s1] using hlt

/-- C3 witness: a non-rate-limit failure at attempt 0 aborts at once with no
sleep; a 429-classified failure at attempt 0 followed by an auth failure at
attempt 1 aborts after the second attempt with a single 2-second sleep; and
a 429-classified first failure always yields a second attempt. -/
theorem analyze_image_fatal_vs_retryable_witness :
    ((analyze_image (.ok 7) ⟨some "image/png", some 5, [1, 2, 3]⟩ "p"
        (fun _ => .err "auth denied")).outcome =
      .error ⟨500, "Gemini API分析エラー: auth denied"⟩ ∧
     (analyze_image (.ok 7) ⟨some "image/png", some 5, [1, 2, 3]⟩ "p"
        (fun _ => .err "auth denied")).calls.length = 1 ∧
     (analyze_image (.ok 7) ⟨some "image/png", some 5, [1, 2, 3]⟩ "p"
        (fun _ => .err "auth denied")).sleeps = []) ∧
    ((analyze_image (.ok 7) ⟨some "image/png", some 5, [1, 2, 3]⟩ "p"
        (fun n => if n = 0 then .err "429" else .err "auth denied")).calls.length = 2 ∧
     (analyze_image (.ok 7) ⟨some "image/png", some 5, [1, 2, 3]⟩ "p"
        (fun n => if n = 0 then .err "429" else .err "auth denied")).sleeps = [2]) ∧
    2 ≤ (analyze_image (.ok 7) ⟨some "image/png", some 5, [1, 2, 3]⟩ "p"
        (fun _ => .err "429")).calls.length := by
  refine ⟨(analyze_image_fatal_vs_retryable 7 ⟨some "image/png", some 5, [1, 2, 3]⟩
      "p" (fun _ => .err "auth denied")).1 "auth denied" rfl (by decide), ?_, ?_⟩
  · have h := (analyze_image_fatal_vs_retryable 7
      ⟨some "image/png", some 5, [1, 2, 3]⟩ "p"
      (fun n => if n = 0 then .err "429" else .err "auth denied")).2.1
      "429" "auth denied" rfl (by decide) rfl (by decide)
    exact ⟨h.2.1, h.2.2⟩
  · exact (analyze_image_fatal_vs_retryable 7
      ⟨some "image/png", some 5, [1, 2, 3]⟩ "p" (fun _ => .err "429")).2.2.2
      "429" rfl (by decide)

/-- C4 counterexample: in the run reaching the maximal number of backoff
waits — every attempt failing with a rate-limit error — the sleeps are
exactly `[2, 4]`: the loop never reaches an 8-second wait (the code comment
announcing `2 -> 4 -> 8` notwithstanding) and the total sleep is 6, not
about 14. -/
theorem analyze_image_backoff_no_eight :
    (analyze_image (.ok 0) ⟨some "image/png", none, [1]⟩ "p"
        (fun _ => .err "429")).sleeps = [2, 4] ∧
    ¬ (8 ∈ (analyze_image (.ok 0) ⟨some "image/png", none, [1]⟩ "p"
        (fun _ => .err "429")).sleeps) ∧
    (analyze_image (.ok 0) ⟨some "image/png", none, [1]⟩ "p"
        (fun _ => .err "429")).sleeps.sum = 6 := by
  decide

/-- C4 amended: the k-th backoff wait (0-based attempt k) equals
`INITIAL_RETRY_DELAY * 2 ^ k`, but only attempts 0 and 1 ever sleep, so the
realized sleep sequence is always a prefix of `[2, 4]`: at most 2 waits, no
single wait above 4 seconds, and at most `2 + 4 = 6` seconds of total sleep
per invocation. -/
theorem analyze_image_backoff_schedule (client : Nat) (file : UploadFileM)
    (prompt : String) (outcomes : Nat → GenOutcome) :
    ((analyze_image (.ok client) file prompt outcomes).sleeps = [] ∨
      (analyze_image (.ok client) file prompt outcomes).sleeps = [2] ∨
      (analyze_image (.ok client) file prompt outcomes).sleeps = [2, 4]) ∧
    (analyze_image (.ok client) file prompt outcomes).sleeps =
      [INITIAL_RETRY_DELAY * 2 ^ 0, INITIAL_RETRY_DELAY * 2 ^ 1].take
        (analyze_image (.ok client) file prompt outcomes).sleeps.length ∧
    (analyze_image (.ok client) file prompt outcomes).sleeps.length ≤ 2 ∧
    (analyze_image (.ok client) file prompt outcomes).sleeps.sum ≤ 6 := by
  have hs : (analyze_image (.ok client) file prompt outcomes).sleeps =
      (retryLoop (sentCall file prompt) outcomes MAX_RETRIES 0 none [] []).2.1 := by
    rw [analyze_image_ok]
  rw [hs]
  rcases retryLoop_sleeps_cases (sentCall file prompt) outcomes with h | h | h <;>
    rw [h] <;> exact ⟨by decide, by decide, by decide, by decide⟩

/-- C5: the analyze endpoint's checks run in order and short-circuit.  A
falsy or non-`image/` content type raises the unsupported-media-type 400; a
declared size strictly above `MAX_FILE_SIZE` raises the oversize 400, while
a size equal to the ceiling or an unknown size falls through to the prompt
check; a prompt empty after trimming raises the empty-prompt 400; otherwise
the service runs and its outcome is returned.  In every failure case the
trace records `serviceTrace = none`: the invoker was never called. -/
theorem analyze_endpoint_validation_order
    (clientInit : Except HTTPException Nat) (file : UploadFileM)
    (prompt : String) (outcomes : Nat → GenOutcome) :
    ((truthyStr file.contentType = false ∨
        strStartsWith (file.contentType.getD "") "image/" = false) →
      analyze_image_endpoint clientInit file prompt outcomes =
        ⟨none, .error ⟨400, "画像ファイルのみサポートしています"⟩⟩) ∧
    (∀ n, truthyStr file.contentType = true →
      strStartsWith (file.contentType.getD "") "image/" = true →
      file.size = some n → MAX_FILE_SIZE < n →
      analyze_image_endpoint clientInit file prompt outcomes =
        ⟨none, .error ⟨400, "ファイルサイズは20MB以下にしてください"⟩⟩) ∧
    (truthyStr file.contentType = true →
      strStartsWith (file.contentType.getD "") "image/" = true →
      (file.size = none ∨ file.size = some MAX_FILE_SIZE) →
      analyze_image_endpoint clientInit file prompt outcomes =
        (if (pyStrip prompt).length == 0 then
          ⟨none, .error ⟨400, "プロンプトが空です"⟩⟩
        else
          ⟨some (analyze_image clientInit file prompt outcomes),
            (analyze_image clientInit file prompt outcomes).outcome⟩)) ∧
    (truthyStr file.contentType = true →
      strStartsWith (file.contentType.getD "") "image/" = true →
      (truthyNat file.size && decide (file.size.getD 0 > MAX_FILE_SIZE)) = false →
      (pyStrip prompt).length = 0 →
      analyze_image_endpoint clientInit file prompt outcomes =
        ⟨none, .error ⟨400, "プロンプトが空です"⟩⟩) ∧
    (truthyStr file.contentType = true →
      strStartsWith (file.contentType.getD "") "image/" = true →
      (truthyNat file.size && decide (file.size.getD 0 > MAX_FILE_SIZE)) = false →
      (pyStrip prompt).length ≠ 0 →
      analyze_image_endpoint clientInit file prompt outcomes =
        ⟨some (analyze_image clientInit file prompt outcomes),
          (analyze_image clientInit file prompt outcomes).outcome⟩) := by
  refine ⟨?_, ?_, ?_, ?_, ?_⟩
  · intro h
    have hc : (!truthyStr file.contentType
        || !strStartsWith (file.contentType.getD "") "image/") = true := by
      rcases h with h | h <;> simp [h]
    simp [analyze_image_endpoint, hc]
  · intro n h1 h2 hn hlt
    have ht : truthyNat file.size = true := by
      rw [hn]
      simp [truthyNat]
      omega
    have hd : decide (file.size.getD 0 > MAX_FILE_SIZE) = true := by
      rw [hn]
      simpa using hlt
    simp [analyze_image_endpoint, h1, h2, ht, hd]
  · intro h1 h2 hsz
    have hb : (truthyNat file.size
        && decide (file.size.getD 0 > MAX_FILE_SIZE)) = false := by
      rcases hsz with h | h <;> simp [h, truthyNat, MAX_FILE_SIZE]
    simp only [analyze_image_endpoint, h1, h2, hb]
    simp
  · intro h1 h2 hb hp
    simp [analyze_image_endpoint, h1, h2, hb, hp]
  · intro h1 h2 hb hp
    simp [analyze_image_endpoint, h1, h2, hb, hp]

/-- C5 witness: a `text/plain` upload is rejected as unsupported media, a
file one byte above the 20 MiB ceiling is rejected as too large, a file of
exactly the ceiling with a whitespace prompt reaches (and fails) the prompt
check, and a fully valid request reaches the service. -/
theorem analyze_endpoint_validation_order_witness :
    analyze_image_endpoint (.ok 1) ⟨some "text/plain", some 4, [1]⟩ "hi"
        (fun _ => .ok (some "t")) =
      ⟨none, .error ⟨400, "画像ファイルのみサポートしています"⟩⟩ ∧
    analyze_image_endpoint (.ok 1)
        ⟨some "image/png", some (MAX_FILE_SIZE + 1), [1]⟩ "hi"
        (fun _ => .ok (some "t")) =
      ⟨none, .error ⟨400, "ファイルサイズは20MB以下にしてください"⟩⟩ ∧
    analyze_image_endpoint (.ok 1) ⟨some "image/png", some MAX_FILE_SIZE, [1]⟩
        "  " (fun _ => .ok (some "t")) =
      ⟨none, .error ⟨400, "プロンプトが空です"⟩⟩ ∧
    analyze_image_endpoint (.ok 1) ⟨some "image/png", some 4, [1]⟩ "hi"
        (fun _ => .ok (some "t")) =
      ⟨some (analyze_image (.ok 1) ⟨some "image/png", some 4, [1]⟩ "hi"
          (fun _ => .ok (some "t"))),
        (analyze_image (.ok 1) ⟨some "image/png", some 4, [1]⟩ "hi"
          (fun _ => .ok (some "t"))).outcome⟩ := by
  refine ⟨(analyze_endpoint_validation_order (.ok 1)
      ⟨some "text/plain", some 4, [1]⟩ "hi" (fun _ => .ok (some "t"))).1
      (Or.inr (by decide)), ?_, ?_, ?_⟩
  · exact (analyze_endpoint_validation_order (.ok 1)
      ⟨some "image/png", some (MAX_FILE_SIZE + 1), [1]⟩ "hi"
      (fun _ => .ok (some "t"))).2.1 (MAX_FILE_SIZE + 1) (by decide) (by decide)
      rfl (by decide)
  · exact (analyze_endpoint_validation_order (.ok 1)
      ⟨some "image/png", some MAX_FILE_SIZE, [1]⟩ "  "
      (fun _ => .ok (some "t"))).2.2.2.1 (by decide) (by decide) (by decide)
      (by decide)
  · exact (analyze_endpoint_validation_order (.ok 1)
      ⟨some "image/png", some 4, [1]⟩ "hi" (fun _ => .ok (some "t"))).2.2.2.2
      (by decide) (by decide) (by decide) (by decide)

/-- C6: an uncached `get_gemini_client` call raises the 500 client-init
error when the project variable is falsy, when the location variable is
falsy, or when the `genai.Client` construction fails — and a failure leaves
the cache empty, so the next call runs the body again.  A successful
construction stores the handle, and every call finding a cached handle
returns exactly that handle without running the body. -/
theorem get_gemini_client_contract (env : Env) (construct : Except String Nat)
    (cache : Option Nat) :
    (cache = none → truthyStr env.googleCloudProject = false →
      get_gemini_client env construct cache =
        ⟨.error ⟨500,
          "Gemini API初期化エラー: GOOGLE_CLOUD_PROJECT環境変数が設定されていません"⟩,
          none, true⟩) ∧
    (cache = none → truthyStr env.googleCloudProject = true →
      truthyStr env.vertexAiLocation = false →
      get_gemini_client env construct cache =
        ⟨.error ⟨500,
          "Gemini API初期化エラー: VERTEX_AI_LOCATION環境変数が設定されていません"⟩,
          none, true⟩) ∧
    (∀ m, cache = none → truthyStr env.googleCloudProject = true →
      truthyStr env.vertexAiLocation = true → construct = .error m →
      get_gemini_client env construct cache =
        ⟨.error ⟨500, "Gemini API初期化エラー: " ++ m⟩, none, true⟩) ∧
    (∀ c, cache = none → truthyStr env.googleCloudProject = true →
      truthyStr env.vertexAiLocation = true → construct = .ok c →
      get_gemini_client env construct cache = ⟨.ok c, some c, true⟩) ∧
    (∀ c, cache = some c →
      get_gemini_client env construct cache = ⟨.ok c, some c, false⟩) ∧
    (cache = none → (get_gemini_client env construct cache).bodyRan = true) := by
  refine ⟨?_, ?_, ?_, ?_, ?_, ?_⟩
  · intro hc h1
    subst hc
    simp [get_gemini_client, getGeminiClientBody, h1]
  · intro hc h1 h2
    subst hc
    simp [get_gemini_client, getGeminiClientBody, h1, h2]
  · intro m hc h1 h2 hm
    subst hc
    simp [get_gemini_client, getGeminiClientBody, h1, h2, hm]
  · intro c hc h1 h2 hco
    subst hc
    simp [get_gemini_client, getGeminiClientBody, h1, h2, hco]
  · intro c hc
    subst hc
    simp [get_gemini_client]
  · intro hc
    subst hc
    cases hb : getGeminiClientBody env construct <;>
      simp [get_gemini_client, hb]

/-- C6 witness: a missing project rejects with 500, a failing construction
rejects with 500 and leaves the cache empty, a successful construction
caches handle 3, and a later call with handle 3 cached returns it without
running the body. -/
theorem get_gemini_client_contract_witness :
    get_gemini_client ⟨none, some "us-central1"⟩ (.ok 3) none =
      ⟨.error ⟨500,
        "Gemini API初期化エラー: GOOGLE_CLOUD_PROJECT環境変数が設定されていません"⟩,
        none, true⟩ ∧
    get_gemini_client ⟨some "proj", some "us-central1"⟩ (.error "denied") none =
      ⟨.error ⟨500, "Gemini API初期化エラー: denied"⟩, none, true⟩ ∧
    get_gemini_client ⟨some "proj", some "us-central1"⟩ (.ok 3) none =
      ⟨.ok 3, some 3, true⟩ ∧
    get_gemini_client ⟨none, none⟩ (.error "denied") (some 3) =
      ⟨.ok 3, some 3, false⟩ :=
  ⟨(get_gemini_client_contract ⟨none, some "us-central1"⟩ (.ok 3) none).1
      rfl (by decide),
    (get_gemini_client_contract ⟨some "proj", some "us-central1"⟩
      (.error "denied") none).2.2.1 "denied" rfl (by decide) (by decide) rfl,
    (get_gemini_client_contract ⟨some "proj", some "us-central1"⟩ (.ok 3)
      none).2.2.2.1 3 rfl (by decide) (by decide) rfl,
    (get_gemini_client_contract ⟨none, none⟩ (.error "denied")
      (some 3)).2.2.2.2.1 3 rfl⟩

/-- C7: a successful upstream call whose `response.text` is `None` or the
empty string yields a response whose text is the fixed non-empty placeholder
string, with status `"success"`. -/
theorem analyze_image_empty_text_placeholder (client : Nat)
    (file : UploadFileM) (prompt : String) (outcomes : Nat → GenOutcome)
    (t : Option String)
    (hs : (retryLoop (sentCall file prompt) outcomes MAX_RETRIES 0 none [] []).2.2 =
      .success t)
    (ht : t = none ∨ t = some "") :
    (analyze_image (.ok client) file prompt outcomes).outcome =
      .ok ⟨"分析結果を取得できませんでした", "success"⟩ ∧
    "分析結果を取得できませんでした" ≠ "" := by
  have h1 : (analyze_image (.ok client) file prompt outcomes).outcome =
      assembleOutcome
        (retryLoop (sentCall file prompt) outcomes MAX_RETRIES 0 none [] []).2.2 := by
    rw [analyze_image_ok]
  rw [h1, hs]
  rcases ht with h | h <;> subst h <;> exact ⟨rfl, by decide⟩

/-- C7 witness: a first-attempt success with empty text returns the
placeholder response. -/
theorem analyze_image_empty_text_placeholder_witness :
    (analyze_image (.ok 7) ⟨some "image/png", some 5, [1, 2, 3]⟩ "p"
        (fun _ => .ok (some ""))).outcome =
      .ok ⟨"分析結果を取得できませんでした", "success"⟩ ∧
    "分析結果を取得できませんでした" ≠ "" :=
  analyze_image_empty_text_placeholder 7 ⟨some "image/png", some 5, [1, 2, 3]⟩
    "p" (fun _ => .ok (some "")) (some "") rfl (Or.inr rfl)

/-- C8: `health_check` is a total boolean boundary: it yields `true` exactly
when `get_gemini_client` succeeds and `false` exactly when it raises, and
the gemini health endpoint maps `true` to the 200 healthy payload and
`false` to the raised 503. -/
theorem health_check_boolean_boundary (env : Env)
    (construct : Except String Nat) (cache : Option Nat) :
    ((health_check env construct cache).1 = true ↔
      ∃ c, (get_gemini_client env construct cache).result = .ok c) ∧
    ((health_check env construct cache).1 = false ↔
      ∃ e, (get_gemini_client env construct cache).result = .error e) ∧
    ((health_check env construct cache).1 = true →
      (gemini_health env construct cache).1 =
        .ok ⟨"healthy", "Google Gemini 2.5 Pro via Vertex AI"⟩) ∧
    ((health_check env construct cache).1 = false →
      (gemini_health env construct cache).1 =
        .error ⟨503, "Gemini API接続エラー"⟩) := by
  cases hr : (get_gemini_client env construct cache).result with
  | ok c => simp [health_check, gemini_health, hr]
  | error e => simp [health_check, gemini_health, hr]

/-- C8 witness: with the project variable missing the health check returns
`false` and the endpoint raises 503; with a cached handle it returns `true`
and the endpoint answers healthy. -/
theorem health_check_boolean_boundary_witness :
    (health_check ⟨none, none⟩ (.ok 1) none).1 = false ∧
    (gemini_health ⟨none, none⟩ (.ok 1) none).1 =
      .error ⟨503, "Gemini API接続エラー"⟩ ∧
    (health_check ⟨none, none⟩ (.ok 1) (some 2)).1 = true ∧
    (gemini_health ⟨none, none⟩ (.ok 1) (some 2)).1 =
      .ok ⟨"healthy", "Google Gemini 2.5 Pro via Vertex AI"⟩ := by
  have hfalse : (health_check ⟨none, none⟩ (.ok 1) none).1 = false := by decide
  have htrue : (health_check ⟨none, none⟩ (.ok 1) (some 2)).1 = true := by decide
  exact ⟨hfalse,
    (health_check_boolean_boundary ⟨none, none⟩ (.ok 1) none).2.2.2 hfalse,
    htrue,
    (health_check_boolean_boundary ⟨none, none⟩ (.ok 1) (some 2)).2.2.1 htrue⟩

/-- Every call the retry loop ever records is either already in the
accumulator or the single fixed call record built before the loop. -/
lemma retryLoop_calls_mem (call : CallRec) (outcomes : Nat → GenOutcome) :
    ∀ (fuel attempt : Nat) (lastExc : Option String) (calls : List CallRec)
      (sleeps : List Nat) (c : CallRec),
      c ∈ (retryLoop call outcomes fuel attempt lastExc calls sleeps).1 →
      c ∈ calls ∨ c = call
  | 0, _, _, _, _ => fun _ h => Or.inl h
  | fuel + 1, attempt, lastExc, calls, sleeps => by
    intro c hc
    cases h : outcomes attempt with
    | ok t =>
      rw [retryLoop_success call outcomes fuel attempt lastExc calls sleeps t h]
        at hc
      simpa using hc
    | err m =>
      cases hr : isRateLimitError m with
      | false =>
        rw [retryLoop_fatal call outcomes fuel attempt lastExc calls sleeps m
          h hr] at hc
        simpa using hc
      | true =>
        by_cases hl : attempt < MAX_RETRIES - 1
        · rw [retryLoop_rate_limited_retry call outcomes fuel attempt lastExc
            calls sleeps m h hr hl] at hc
          rcases retryLoop_calls_mem call outcomes fuel (attempt + 1) (some m)
            (calls ++ [call]) (sleeps ++ [INITIAL_RETRY_DELAY * 2 ^ attempt])
            c hc with hmem | heq
          · rcases List.mem_append.mp hmem with hmem2 | hmem2
            · exact Or.inl hmem2
            · exact Or.inr (by simpa using hmem2)
          · exact Or.inr heq
        · rw [retryLoop_rate_limited_last call outcomes fuel attempt lastExc
            calls sleeps m h hr hl] at hc
          rcases retryLoop_calls_mem call outcomes fuel (attempt + 1) (some m)
            (calls ++ [call]) sleeps c hc with hmem | heq
          · rcases List.mem_append.mp hmem with hmem2 | hmem2
            · exact Or.inl hmem2
            · exact Or.inr (by simpa using hmem2)
          · exact Or.inr heq

/-- C9 counterexample: with a present but empty declared content type the
attempt is sent with MIME type `"image/jpeg"`, not the declared `""` — the
Python `or` also replaces an empty (not only a missing) content type. -/
theorem analyze_image_mime_empty_counterexample :
    (analyze_image (.ok 0) ⟨some "", none, [1]⟩ "p"
        (fun _ => .ok (some "t"))).calls = [⟨"p", [1], "image/jpeg"⟩] ∧
    (⟨some "", none, [1]⟩ : UploadFileM).contentType ≠ none ∧
    ¬ ("image/jpeg" = "") := by
  decide

/-- C9 amended: within one invocation entered with an obtained client, the
file is read exactly once, before the loop, and every attempt's
`generate_content` call carries identical arguments: the exact untrimmed
prompt, the bytes of that single read, and the MIME type
`file.content_type or "image/jpeg"` (the jpeg default applies when the
declared content type is missing or empty). -/
theorem analyze_image_attempts_uniform (client : Nat) (file : UploadFileM)
    (prompt : String) (outcomes : Nat → GenOutcome) :
    (analyze_image (.ok client) file prompt outcomes).reads = 1 ∧
    ∀ c ∈ (analyze_image (.ok client) file prompt outcomes).calls,
      c.prompt = prompt ∧ c.data = file.content ∧
      c.mimeType = mimeTypeOf file := by
  refine ⟨rfl, ?_⟩
  intro c hc
  have hmem : c ∈ (retryLoop (sentCall file prompt) outcomes MAX_RETRIES 0
      none [] []).1 := by
    rw [analyze_image_ok] at hc
    exact hc
  rcases retryLoop_calls_mem (sentCall file prompt) outcomes MAX_RETRIES 0
      none [] [] c hmem with hmem2 | heq
  · simp at hmem2
  · subst heq
    exact ⟨rfl, rfl, rfl⟩

/-- C9 witness: in a concrete two-attempt run the single read and both
identical calls are exhibited by the theorem at attempt call records. -/
theorem analyze_image_attempts_uniform_witness :
    (analyze_image (.ok 7) ⟨some "image/png", some 5, [1, 2, 3]⟩ "describe"
        (fun n => if n = 0 then .err "429" else .ok (some "t"))).reads = 1 ∧
    (⟨"describe", [1, 2, 3], "image/png"⟩ : CallRec).prompt = "describe" ∧
    (⟨"describe", [1, 2, 3], "image/png"⟩ : CallRec).data = [1, 2, 3] ∧
    (⟨"describe", [1, 2, 3], "image/png"⟩ : CallRec).mimeType =
      mimeTypeOf ⟨some "image/png", some 5, [1, 2, 3]⟩ := by
  have h := analyze_image_attempts_uniform 7 ⟨some "image/png", some 5, [1, 2, 3]⟩
    "describe" (fun n => if n = 0 then .err "429" else .ok (some "t"))
  have hcall := h.2 ⟨"describe", [1, 2, 3], "image/png"⟩ (by decide)
  exact ⟨h.1, hcall.1, hcall.2.1, hcall.2.2⟩

/-- C10: the readiness probe's `try` body is total — it only samples the
clock and formats a timestamp, both modelled as inputs — so every
invocation returns the 200 payload with status `"ready"` and the timestamp,
and the 503 `"Service not ready"` branch is never taken. -/
theorem readiness_probe_never_503 (currentTime : Nat) (timestamp : String) :
    readiness_probe currentTime timestamp =
      .ok ("ready", timestamp, currentTime) ∧
    ∀ e, readiness_probe currentTime timestamp ≠ .error e :=
  ⟨rfl, fun _ h => Except.noConfusion h⟩

/-- C10 witness: a concrete invocation returns ready and is not the 503
error. -/
theorem readiness_probe_never_503_witness :
    readiness_probe 42 "2025-10-12T00:00:00+00:00" ≠
      .error ⟨503, "Service not ready"⟩ :=
  (readiness_probe_never_503 42 "2025-10-12T00:00:00+00:00").2
    ⟨503, "Service not ready"⟩

end GcloudBackend
